import Mathlib

/-!
# Verification of `verify_reset_button.py`

A shallow embedding of the repository's single script, which drives a
headless-browser automation library:

```python
async def main():
    async with async_playwright() as p:
        browser = await p.chromium.launch()
        page = await browser.new_page()
        html_file_path = os.path.abspath('index.html')
        await page.goto(f'file://{html_file_path}')
        await page.wait_for_selector('#main-menu')
        screenshot_path = 'reset-button.png'
        await page.locator('#main-menu').screenshot(path=screenshot_path)
        print(f"Screenshot saved to {screenshot_path}")
        await browser.close()
```

The browser-automation library is external to the repository; its contract
(launch may fail, navigation to a `file://` URL resolves the URL's path
component and fails when no document is there, the selector wait succeeds
only when the element becomes visible within the default timeout, the
element screenshot writes an image cropped to the element's bounding box)
is modelled abstractly by `BrowserEnv`, following the spec's description of
the external collaborator. The filesystem is an association list from
paths to file contents; standard URL semantics truncate the path component
of a `file://` URL at the first `#` or `?`.

The script's run is modelled by `run`, which returns the ordered trace of
effects issued to the library, the final filesystem, the lines printed to
standard output, the process exit code, and the library error (if any)
that propagated out of `main`.
-/

/-- A bitmap image: dimensions plus pixel data. -/
structure Image where
  width : Nat
  height : Nat
  pixels : List Nat
deriving DecidableEq

/-- Contents of a file on disk: either a text document or an image. -/
inductive FileData where
  | text (doc : String)
  | image (img : Image)
deriving DecidableEq

/-- A filesystem: an association list from absolute paths to contents. -/
abbrev FS := List (String × FileData)

/-- Read the file at path `p`, if present. -/
def readFile (fs : FS) (p : String) : Option FileData :=
  (fs.find? (fun kv => kv.1 == p)).map (fun kv => kv.2)

/-- Write `d` at path `p`, silently overwriting any existing entry. -/
def writeFile (fs : FS) (p : String) (d : FileData) : FS :=
  (p, d) :: fs.filter (fun kv => kv.1 != p)

/-- The rendered view of one DOM element: its bounding box and pixels. -/
structure ElemView where
  width : Nat
  height : Nat
  pixels : List Nat
deriving DecidableEq

/-- A rendered page: which selectors have an element that becomes present
and visible within the library's default timeout, and that element's view. -/
structure RenderedPage where
  visibleWithinTimeout : String → Option ElemView

/-- The element-scoped screenshot: a bitmap cropped to the element. -/
def elemImage (v : ElemView) : Image :=
  { width := v.width, height := v.height, pixels := v.pixels }

/-- The external browser-automation collaborator, modelled abstractly from
the spec: whether the browser engine launches, how it renders a document
(deterministic in the document's text), and which output paths the host
filesystem accepts for writing. -/
structure BrowserEnv where
  launchOk : Bool
  render : String → RenderedPage
  writeOk : String → Bool

/-- Errors raised by the browser-automation library, propagated unmodified. -/
inductive PwError where
  | launchFailed
  | navigationFailed (url : String)
  | selectorTimeout (sel : String)
  | writeFailed (path : String)
deriving DecidableEq

/-- One browser-automation effect issued by the script, in program order.
`stopPlaywright` is the scoped teardown performed by the
`async with async_playwright()` context manager on every exit path; it
terminates any browser process the session spawned. -/
inductive Event where
  | launchBrowser
  | newPage
  | goto (url : String)
  | waitForSelector (sel : String)
  | screenshot (sel : String) (path : String)
  | printLine (msg : String)
  | closeBrowser
  | stopPlaywright
deriving DecidableEq

/-- The fixed screenshot output path (`screenshot_path = 'reset-button.png'`). -/
def outputPath : String := "reset-button.png"

/-- The fixed CSS selector (`'#main-menu'`). -/
def selector : String := "#main-menu"

/-- The fixed input document name (`'index.html'`). -/
def htmlFileName : String := "index.html"

/-- `os.path.abspath('index.html')`: the name resolved against the current
working directory (taken to be an absolute path without trailing slash). -/
def absPath (cwd rel : String) : String := cwd ++ "/" ++ rel

/-- The navigation URL, exactly as the script builds it:
`f'file://{html_file_path}'` — literal concatenation, no escaping. -/
def fileURL (cwd : String) : String := "file://" ++ absPath cwd htmlFileName

/-- Truncate a URL's remainder at the first `#` (fragment) or `?` (query),
as a browser's URL parser does when extracting the path component. -/
def dropFrag : List Char → List Char
  | [] => []
  | c :: cs => if c = '#' ∨ c = '?' then [] else c :: dropFrag cs

/-- The path component of a `file://` URL, per standard URL semantics. -/
def urlPathChars : List Char → Option (List Char)
  | 'f' :: 'i' :: 'l' :: 'e' :: ':' :: '/' :: '/' :: rest => some (dropFrag rest)
  | _ => none

/-- The filesystem path a browser navigates to for a given URL. -/
def urlPathOf (url : String) : Option String :=
  (urlPathChars url.data).map (fun cs => String.mk cs)

/-- Navigation semantics of the collaborator: resolve the URL's path
component and load the text document there; navigation fails (the library
raises) when the URL is not a `file://` URL or no text document is at the
resolved path. -/
def fetchDoc (fs : FS) (url : String) : Option String :=
  match urlPathOf url with
  | none => none
  | some p =>
    match readFile fs p with
    | some (FileData.text doc) => some doc
    | _ => none

/-- The observable outcome of one invocation of the script. -/
structure RunResult where
  trace : List Event
  fs : FS
  printed : List String
  exitCode : Nat
  err : Option PwError
deriving DecidableEq

/-- The script's `main`, run by `asyncio.run` under `if __name__ == '__main__'`.
`osEnv` and `argv` are the process environment variables and command-line
arguments; the script consults neither. Each branch mirrors one failure
point of the straight-line source (launch, navigation, selector wait,
screenshot write); an unhandled library error propagates out of `main` and
the process exits with status 1, after the scoped session's teardown. -/
def run (env : BrowserEnv) (cwd : String) (fs : FS)
    (osEnv : List (String × String)) (argv : List String) : RunResult :=
  match env.launchOk with
  | false =>
    { trace := [Event.stopPlaywright]
      fs := fs, printed := [], exitCode := 1
      err := some PwError.launchFailed }
  | true =>
    match fetchDoc fs (fileURL cwd) with
    | none =>
      { trace := [Event.launchBrowser, Event.newPage, Event.goto (fileURL cwd),
                  Event.stopPlaywright]
        fs := fs, printed := [], exitCode := 1
        err := some (PwError.navigationFailed (fileURL cwd)) }
    | some doc =>
      match (env.render doc).visibleWithinTimeout selector with
      | none =>
        { trace := [Event.launchBrowser, Event.newPage, Event.goto (fileURL cwd),
                    Event.waitForSelector selector, Event.stopPlaywright]
          fs := fs, printed := [], exitCode := 1
          err := some (PwError.selectorTimeout selector) }
      | some v =>
        match env.writeOk outputPath with
        | true =>
          { trace := [Event.launchBrowser, Event.newPage, Event.goto (fileURL cwd),
                      Event.waitForSelector selector,
                      Event.screenshot selector outputPath,
                      Event.printLine ("Screenshot saved to " ++ outputPath),
                      Event.closeBrowser, Event.stopPlaywright]
            fs := writeFile fs outputPath (FileData.image (elemImage v))
            printed := ["Screenshot saved to " ++ outputPath]
            exitCode := 0, err := none }
        | false =>
          { trace := [Event.launchBrowser, Event.newPage, Event.goto (fileURL cwd),
                      Event.waitForSelector selector,
                      Event.screenshot selector outputPath,
                      Event.stopPlaywright]
            fs := fs, printed := [], exitCode := 1
            err := some (PwError.writeFailed outputPath) }

/-- Step function for tracking whether a spawned browser process is alive:
`launchBrowser` spawns it; `closeBrowser` terminates it; `stopPlaywright`
(the context-manager teardown) terminates any browser the session spawned. -/
def aliveStep (b : Bool) : Event → Bool
  | Event.launchBrowser => true
  | Event.closeBrowser => false
  | Event.stopPlaywright => false
  | _ => b

/-- Whether a browser process is still running after a trace of effects. -/
def browserAlive (t : List Event) : Bool := t.foldl aliveStep false

/-- A working-directory path free of URL fragment and query delimiters. -/
def noFragChars (s : String) : Bool :=
  s.data.all (fun c => !(c == '#' || c == '?'))

/-! ## Demonstration environments and filesystems -/

/-- A demonstration environment: the engine launches, every document
renders with a visible `#main-menu` element of size 10 by 5, and every
output path is writable. -/
def envDemo : BrowserEnv :=
  { launchOk := true
    render := fun _ =>
      { visibleWithinTimeout := fun s =>
          if s = selector then
            some { width := 10, height := 5, pixels := [1, 2, 3] }
          else none }
    writeOk := fun _ => true }

/-- A demonstration environment whose pages never show `#main-menu`. -/
def envNoMenu : BrowserEnv :=
  { launchOk := true
    render := fun _ => { visibleWithinTimeout := fun _ => none }
    writeOk := fun _ => true }

/-- A demonstration filesystem holding `/repo/index.html`. -/
def fsDemo : FS := [("/repo/index.html", FileData.text "<html>")]

/-- A demonstration filesystem with no `index.html` anywhere, but a text
document at `/a`. -/
def fsSharp : FS := [("/a", FileData.text "menu page")]

/-! ## Helper lemmas -/

theorem data_append (a b : String) : (a ++ b).data = a.data ++ b.data := rfl

theorem absPath_data (cwd : String) :
    (absPath cwd htmlFileName).data = cwd.data ++ ('/' :: "index.html".data) := by
  show (cwd.data ++ "/".data) ++ "index.html".data = _
  simp

theorem fileURL_data (cwd : String) :
    (fileURL cwd).data
      = 'f' :: 'i' :: 'l' :: 'e' :: ':' :: '/' :: '/' :: (absPath cwd htmlFileName).data := rfl

theorem noFragChars_spec (s : String) (h : noFragChars s = true) :
    ∀ c ∈ s.data, ¬(c = '#' ∨ c = '?') := by
  intro c hc
  have := List.all_eq_true.mp h c hc
  simp at this
  tauto

theorem dropFrag_append (xs ys : List Char) (h : ∀ c ∈ xs, ¬(c = '#' ∨ c = '?')) :
    dropFrag (xs ++ ys) = xs ++ dropFrag ys := by
  induction xs with
  | nil => rfl
  | cons c cs ih =>
    have hc := h c (List.mem_cons_self c cs)
    have hcs : ∀ x ∈ cs, ¬(x = '#' ∨ x = '?') := fun x hx => h x (List.mem_cons_of_mem c hx)
    simp [dropFrag, hc, ih hcs]

theorem urlPathOf_fileURL (cwd : String) (h : noFragChars cwd = true) :
    urlPathOf (fileURL cwd) = some (absPath cwd htmlFileName) := by
  have hc := noFragChars_spec cwd h
  show (urlPathChars (fileURL cwd).data).map (fun cs => String.mk cs) = _
  rw [fileURL_data, absPath_data]
  show some (String.mk (dropFrag (cwd.data ++ ('/' :: "index.html".data)))) = _
  rw [dropFrag_append _ _ hc]
  have hconst : dropFrag ('/' :: "index.html".data) = '/' :: "index.html".data := by decide
  rw [hconst, ← absPath_data]

theorem readFile_writeFile (fs : FS) (p : String) (d : FileData) :
    readFile (writeFile fs p d) p = some d := by
  simp [readFile, writeFile, List.find?]

theorem find_skip_filter (fs : FS) (p q : String) (h : q ≠ p) :
    List.find? (fun kv => kv.1 == q) (fs.filter (fun kv => kv.1 != p))
      = List.find? (fun kv => kv.1 == q) fs := by
  induction fs with
  | nil => rfl
  | cons kv rest ih =>
    by_cases hp : kv.1 = p
    · have hfilter : List.filter (fun x => x.1 != p) (kv :: rest)
          = List.filter (fun x => x.1 != p) rest := by
        simp [List.filter_cons, hp]
      have hfind : List.find? (fun x => x.1 == q) (kv :: rest)
          = List.find? (fun x => x.1 == q) rest := by
        refine List.find?_cons_of_neg _ ?_
        simp only [beq_iff_eq, hp]
        exact fun he => h he.symm
      rw [hfilter, hfind, ih]
    · have hfilter : List.filter (fun x => x.1 != p) (kv :: rest)
          = kv :: List.filter (fun x => x.1 != p) rest := by
        simp [List.filter_cons, hp]
      rw [hfilter]
      by_cases hq : kv.1 = q
      · rw [List.find?_cons_of_pos _ (by simp [hq]),
          List.find?_cons_of_pos _ (by simp [hq])]
      · rw [List.find?_cons_of_neg _ (by simp [hq]),
          List.find?_cons_of_neg _ (by simp [hq]), ih]

theorem readFile_writeFile_ne (fs : FS) (p q : String) (d : FileData) (h : q ≠ p) :
    readFile (writeFile fs p d) q = readFile fs q := by
  unfold readFile writeFile
  rw [List.find?_cons_of_neg _ (by simp only [beq_iff_eq]; exact fun he => h he.symm),
    find_skip_filter fs p q h]

theorem absPath_ne_output (cwd : String) : absPath cwd htmlFileName ≠ outputPath := by
  intro h
  have hm : '/' ∈ (absPath cwd htmlFileName).data := by
    rw [absPath_data]
    exact List.mem_append_right _ (List.mem_cons_self _ _)
  rw [h] at hm
  revert hm
  decide

/-! ## Branch equations for `run` -/

theorem run_eq_launchFail (env : BrowserEnv) (cwd : String) (fs : FS)
    (osEnv : List (String × String)) (argv : List String)
    (hl : env.launchOk = false) :
    run env cwd fs osEnv argv =
      { trace := [Event.stopPlaywright]
        fs := fs, printed := [], exitCode := 1
        err := some PwError.launchFailed } := by
  unfold run
  rw [hl]

theorem run_eq_navFail (env : BrowserEnv) (cwd : String) (fs : FS)
    (osEnv : List (String × String)) (argv : List String)
    (hl : env.launchOk = true) (hd : fetchDoc fs (fileURL cwd) = none) :
    run env cwd fs osEnv argv =
      { trace := [Event.launchBrowser, Event.newPage, Event.goto (fileURL cwd),
                  Event.stopPlaywright]
        fs := fs, printed := [], exitCode := 1
        err := some (PwError.navigationFailed (fileURL cwd)) } := by
  unfold run
  rw [hl, hd]

theorem run_eq_timeoutFail (env : BrowserEnv) (cwd : String) (fs : FS)
    (osEnv : List (String × String)) (argv : List String) (doc : String)
    (hl : env.launchOk = true) (hd : fetchDoc fs (fileURL cwd) = some doc)
    (hv : (env.render doc).visibleWithinTimeout selector = none) :
    run env cwd fs osEnv argv =
      { trace := [Event.launchBrowser, Event.newPage, Event.goto (fileURL cwd),
                  Event.waitForSelector selector, Event.stopPlaywright]
        fs := fs, printed := [], exitCode := 1
        err := some (PwError.selectorTimeout selector) } := by
  unfold run
  simp only [hl, hd, hv]

theorem run_eq_writeFail (env : BrowserEnv) (cwd : String) (fs : FS)
    (osEnv : List (String × String)) (argv : List String) (doc : String) (v : ElemView)
    (hl : env.launchOk = true) (hd : fetchDoc fs (fileURL cwd) = some doc)
    (hv : (env.render doc).visibleWithinTimeout selector = some v)
    (hw : env.writeOk outputPath = false) :
    run env cwd fs osEnv argv =
      { trace := [Event.launchBrowser, Event.newPage, Event.goto (fileURL cwd),
                  Event.waitForSelector selector,
                  Event.screenshot selector outputPath, Event.stopPlaywright]
        fs := fs, printed := [], exitCode := 1
        err := some (PwError.writeFailed outputPath) } := by
  unfold run
  simp only [hl, hd, hv, hw]

theorem run_eq_success (env : BrowserEnv) (cwd : String) (fs : FS)
    (osEnv : List (String × String)) (argv : List String) (doc : String) (v : ElemView)
    (hl : env.launchOk = true) (hd : fetchDoc fs (fileURL cwd) = some doc)
    (hv : (env.render doc).visibleWithinTimeout selector = some v)
    (hw : env.writeOk outputPath = true) :
    run env cwd fs osEnv argv =
      { trace := [Event.launchBrowser, Event.newPage, Event.goto (fileURL cwd),
                  Event.waitForSelector selector,
                  Event.screenshot selector outputPath,
                  Event.printLine ("Screenshot saved to " ++ outputPath),
                  Event.closeBrowser, Event.stopPlaywright]
        fs := writeFile fs outputPath (FileData.image (elemImage v))
        printed := ["Screenshot saved to " ++ outputPath]
        exitCode := 0, err := none } := by
  unfold run
  simp only [hl, hd, hv, hw]

/-! ## Claim theorems -/

/-- C2: on every exit path of `run` — success, early return, or an error
raised by any step after the browser is launched — the spawned browser
process has been terminated by the time the script terminates (it is not
alive after the final effect), and the scoped session's teardown is the
last effect performed. -/
theorem run_teardown_always (env : BrowserEnv) (cwd : String) (fs : FS)
    (osEnv : List (String × String)) (argv : List String) :
    browserAlive (run env cwd fs osEnv argv).trace = false ∧
    (run env cwd fs osEnv argv).trace.getLast? = some Event.stopPlaywright := by
  cases hl : env.launchOk with
  | false => rw [run_eq_launchFail env cwd fs osEnv argv hl]; exact ⟨rfl, rfl⟩
  | true =>
    cases hd : fetchDoc fs (fileURL cwd) with
    | none => rw [run_eq_navFail env cwd fs osEnv argv hl hd]; exact ⟨rfl, rfl⟩
    | some doc =>
      cases hv : (env.render doc).visibleWithinTimeout selector with
      | none =>
        rw [run_eq_timeoutFail env cwd fs osEnv argv doc hl hd hv]; exact ⟨rfl, rfl⟩
      | some v =>
        cases hw : env.writeOk outputPath with
        | false =>
          rw [run_eq_writeFail env cwd fs osEnv argv doc v hl hd hv hw]; exact ⟨rfl, rfl⟩
        | true =>
          rw [run_eq_success env cwd fs osEnv argv doc v hl hd hv hw]; exact ⟨rfl, rfl⟩

/-- C5: the runner catches, classifies and retries nothing: every run
either succeeds with no library error, or terminates with exit status 1
carrying exactly the library error of the failing step, with the
filesystem untouched and nothing printed (no partial-success state); and
the trace repeats no effect (no retry). -/
theorem run_error_propagation (env : BrowserEnv) (cwd : String) (fs : FS)
    (osEnv : List (String × String)) (argv : List String) :
    ((run env cwd fs osEnv argv).exitCode = 0 ∧ (run env cwd fs osEnv argv).err = none ∨
      ∃ e, (run env cwd fs osEnv argv).exitCode = 1 ∧
        (run env cwd fs osEnv argv).err = some e ∧
        (run env cwd fs osEnv argv).fs = fs ∧
        (run env cwd fs osEnv argv).printed = []) ∧
    (run env cwd fs osEnv argv).trace.Nodup := by
  cases hl : env.launchOk with
  | false =>
    rw [run_eq_launchFail env cwd fs osEnv argv hl]
    exact ⟨Or.inr ⟨PwError.launchFailed, rfl, rfl, rfl, rfl⟩, by simp⟩
  | true =>
    cases hd : fetchDoc fs (fileURL cwd) with
    | none =>
      rw [run_eq_navFail env cwd fs osEnv argv hl hd]
      exact ⟨Or.inr ⟨PwError.navigationFailed (fileURL cwd), rfl, rfl, rfl, rfl⟩, by simp⟩
    | some doc =>
      cases hv : (env.render doc).visibleWithinTimeout selector with
      | none =>
        rw [run_eq_timeoutFail env cwd fs osEnv argv doc hl hd hv]
        exact ⟨Or.inr ⟨PwError.selectorTimeout selector, rfl, rfl, rfl, rfl⟩, by simp⟩
      | some v =>
        cases hw : env.writeOk outputPath with
        | false =>
          rw [run_eq_writeFail env cwd fs osEnv argv doc v hl hd hv hw]
          exact ⟨Or.inr ⟨PwError.writeFailed outputPath, rfl, rfl, rfl, rfl⟩, by simp⟩
        | true =>
          rw [run_eq_success env cwd fs osEnv argv doc v hl hd hv hw]
          exact ⟨Or.inl ⟨rfl, rfl⟩, by simp⟩

theorem fetchDoc_clean (fs : FS) (cwd : String) (h : noFragChars cwd = true) :
    fetchDoc fs (fileURL cwd)
      = match readFile fs (absPath cwd htmlFileName) with
        | some (FileData.text doc) => some doc
        | _ => none := by
  unfold fetchDoc
  simp only [urlPathOf_fileURL cwd h]

/-- C6: every execution of `run` performs its effects in the source's
linear order with no branching, retry, or concurrent task; on a
successful run the trace is exactly: launch browser, open one page,
navigate to the file URL, wait for `#main-menu`, capture the element
screenshot, print the confirmation, close the browser, release the scoped
session — in particular the confirmation is printed only after the
screenshot is written and before the browser is shut down. -/
theorem run_linear_trace (env : BrowserEnv) (cwd : String) (fs : FS)
    (osEnv : List (String × String)) (argv : List String)
    (hsuccess : (run env cwd fs osEnv argv).err = none) :
    (run env cwd fs osEnv argv).trace =
      [Event.launchBrowser, Event.newPage, Event.goto (fileURL cwd),
       Event.waitForSelector selector, Event.screenshot selector outputPath,
       Event.printLine ("Screenshot saved to " ++ outputPath),
       Event.closeBrowser, Event.stopPlaywright] := by
  cases hl : env.launchOk with
  | false => rw [run_eq_launchFail env cwd fs osEnv argv hl] at hsuccess; simp at hsuccess
  | true =>
    cases hd : fetchDoc fs (fileURL cwd) with
    | none => rw [run_eq_navFail env cwd fs osEnv argv hl hd] at hsuccess; simp at hsuccess
    | some doc =>
      cases hv : (env.render doc).visibleWithinTimeout selector with
      | none =>
        rw [run_eq_timeoutFail env cwd fs osEnv argv doc hl hd hv] at hsuccess
        simp at hsuccess
      | some v =>
        cases hw : env.writeOk outputPath with
        | false =>
          rw [run_eq_writeFail env cwd fs osEnv argv doc v hl hd hv hw] at hsuccess
          simp at hsuccess
        | true => rw [run_eq_success env cwd fs osEnv argv doc v hl hd hv hw]

/-- Witness for C6: the linear trace of a concrete successful run. -/
theorem run_linear_trace_witness :
    (run envDemo "/repo" fsDemo [] []).trace =
      [Event.launchBrowser, Event.newPage, Event.goto (fileURL "/repo"),
       Event.waitForSelector selector, Event.screenshot selector outputPath,
       Event.printLine ("Screenshot saved to " ++ outputPath),
       Event.closeBrowser, Event.stopPlaywright] :=
  run_linear_trace envDemo "/repo" fsDemo [] [] (by decide)

/-- C7: every screenshot effect a run issues targets the fixed relative
path `reset-button.png` and the fixed selector `#main-menu`, regardless
of environment, working directory or filesystem; and every successful run
leaves the filesystem equal to the input filesystem with that one path
silently overwritten by the captured image, which is then readable
there. -/
theorem run_fixed_output_path (env : BrowserEnv) (cwd : String) (fs : FS)
    (osEnv : List (String × String)) (argv : List String) :
    (∀ s p, Event.screenshot s p ∈ (run env cwd fs osEnv argv).trace →
      p = outputPath ∧ s = selector) ∧
    ((run env cwd fs osEnv argv).err = none →
      ∃ img, (run env cwd fs osEnv argv).fs
          = writeFile fs outputPath (FileData.image img) ∧
        readFile (run env cwd fs osEnv argv).fs outputPath
          = some (FileData.image img)) := by
  cases hl : env.launchOk with
  | false =>
    rw [run_eq_launchFail env cwd fs osEnv argv hl]
    exact ⟨fun s p hmem => by simp at hmem, fun he => by simp at he⟩
  | true =>
    cases hd : fetchDoc fs (fileURL cwd) with
    | none =>
      rw [run_eq_navFail env cwd fs osEnv argv hl hd]
      exact ⟨fun s p hmem => by simp at hmem, fun he => by simp at he⟩
    | some doc =>
      cases hv : (env.render doc).visibleWithinTimeout selector with
      | none =>
        rw [run_eq_timeoutFail env cwd fs osEnv argv doc hl hd hv]
        exact ⟨fun s p hmem => by simp at hmem, fun he => by simp at he⟩
      | some v =>
        cases hw : env.writeOk outputPath with
        | false =>
          rw [run_eq_writeFail env cwd fs osEnv argv doc v hl hd hv hw]
          refine ⟨fun s p hmem => ?_, fun he => by simp at he⟩
          simp at hmem
          exact ⟨hmem.2, hmem.1⟩
        | true =>
          rw [run_eq_success env cwd fs osEnv argv doc v hl hd hv hw]
          refine ⟨fun s p hmem => ?_, fun _ => ?_⟩
          · simp at hmem
            exact ⟨hmem.2, hmem.1⟩
          · exact ⟨elemImage v, rfl, readFile_writeFile fs outputPath _⟩

/-- Witness for C7 at a concrete successful run. -/
theorem run_fixed_output_path_witness :
    (outputPath = outputPath ∧ selector = selector) ∧
    ∃ img, (run envDemo "/repo" fsDemo [] []).fs
        = writeFile fsDemo outputPath (FileData.image img) ∧
      readFile (run envDemo "/repo" fsDemo [] []).fs outputPath
        = some (FileData.image img) :=
  ⟨(run_fixed_output_path envDemo "/repo" fsDemo [] []).1 selector outputPath (by decide),
   (run_fixed_output_path envDemo "/repo" fsDemo [] []).2 (by decide)⟩

/-- C8: the script reads no environment variables and no command-line
arguments: two runs differing only in the environment-variable map or in
`argv` produce identical outcomes — the same trace of browser-automation
calls, final filesystem, printed output and exit code; behaviour depends
only on the working directory and its contents. -/
theorem run_env_noninterference (env : BrowserEnv) (cwd : String) (fs : FS)
    (osEnv₁ osEnv₂ : List (String × String)) (argv₁ argv₂ : List String) :
    run env cwd fs osEnv₁ argv₁ = run env cwd fs osEnv₂ argv₂ := rfl

/-- C1: for every run in a working directory holding a valid `index.html`
that the engine renders with a `#main-menu` element visible within the
default timeout (and a launchable engine and writable output path), the
script writes the element's image at `reset-button.png`, prints a message
containing that filename, and exits with status 0. -/
theorem run_success_postcondition (env : BrowserEnv) (cwd : String) (fs : FS)
    (osEnv : List (String × String)) (argv : List String) (doc : String) (v : ElemView)
    (hl : env.launchOk = true)
    (hd : fetchDoc fs (fileURL cwd) = some doc)
    (hv : (env.render doc).visibleWithinTimeout selector = some v)
    (hw : env.writeOk outputPath = true) :
    (run env cwd fs osEnv argv).exitCode = 0 ∧
    readFile (run env cwd fs osEnv argv).fs outputPath
      = some (FileData.image (elemImage v)) ∧
    ∃ pre, (run env cwd fs osEnv argv).printed = [pre ++ outputPath] := by
  rw [run_eq_success env cwd fs osEnv argv doc v hl hd hv hw]
  exact ⟨rfl, readFile_writeFile fs outputPath _, ⟨"Screenshot saved to ", rfl⟩⟩

/-- Witness for C1 at a concrete successful run. -/
theorem run_success_postcondition_witness :
    (run envDemo "/repo" fsDemo [] []).exitCode = 0 ∧
    readFile (run envDemo "/repo" fsDemo [] []).fs outputPath
      = some (FileData.image
          (elemImage { width := 10, height := 5, pixels := [1, 2, 3] })) ∧
    ∃ pre, (run envDemo "/repo" fsDemo [] []).printed = [pre ++ outputPath] :=
  run_success_postcondition envDemo "/repo" fsDemo [] [] "<html>"
    { width := 10, height := 5, pixels := [1, 2, 3] }
    (by decide) (by decide) (by decide) (by decide)

/-- C3 counterexample: in the working directory `/a#b` — whose absolute
path contains `#` — with no `index.html` anywhere on disk but a text
document at `/a`, the browser resolves the unescaped URL
`file:///a#b/index.html` to the path `/a` (everything from `#` on is a
URL fragment), the navigation succeeds, and the run exits with status 0
and creates `reset-button.png`; so a run with no `index.html` does not
always exit non-zero with no screenshot written. -/
theorem run_missing_index_counterexample :
    readFile fsSharp (absPath "/a#b" htmlFileName) = none ∧
    (run envDemo "/a#b" fsSharp [] []).exitCode = 0 ∧
    readFile (run envDemo "/a#b" fsSharp [] []).fs outputPath
      = some (FileData.image { width := 10, height := 5, pixels := [1, 2, 3] }) := by
  decide

/-- C3 (amended): for every run started in a working directory whose
absolute path contains no `#` or `?` character and that holds no
`index.html`, the script fails before the screenshot step (no screenshot
effect is issued), exits with a non-zero status, and `reset-button.png`
is neither created nor modified (the filesystem is unchanged). -/
theorem run_missing_index (env : BrowserEnv) (cwd : String) (fs : FS)
    (osEnv : List (String × String)) (argv : List String)
    (hclean : noFragChars cwd = true)
    (hmissing : readFile fs (absPath cwd htmlFileName) = none) :
    (run env cwd fs osEnv argv).exitCode = 1 ∧
    (run env cwd fs osEnv argv).fs = fs ∧
    Event.screenshot selector outputPath ∉ (run env cwd fs osEnv argv).trace := by
  have hd : fetchDoc fs (fileURL cwd) = none := by
    rw [fetchDoc_clean fs cwd hclean, hmissing]
  cases hl : env.launchOk with
  | false =>
    rw [run_eq_launchFail env cwd fs osEnv argv hl]
    exact ⟨rfl, rfl, by simp⟩
  | true =>
    rw [run_eq_navFail env cwd fs osEnv argv hl hd]
    exact ⟨rfl, rfl, by simp⟩

/-- Witness for the amended C3: an empty filesystem and a clean working
directory. -/
theorem run_missing_index_witness :
    (run envDemo "/repo" [] [] []).exitCode = 1 ∧
    (run envDemo "/repo" [] [] []).fs = [] ∧
    Event.screenshot selector outputPath ∉ (run envDemo "/repo" [] [] []).trace :=
  run_missing_index envDemo "/repo" [] [] [] (by decide) (by decide)

/-- C4: for every run where the page loads (`index.html` resolves to a
document) but no element matching `#main-menu` becomes present and
visible within the library's default timeout, the wait step fails with
the library's timeout error, no screenshot effect is issued, the
filesystem is unchanged, and the process exits with a non-zero status. -/
theorem run_visibility_timeout (env : BrowserEnv) (cwd : String) (fs : FS)
    (osEnv : List (String × String)) (argv : List String) (doc : String)
    (hl : env.launchOk = true)
    (hd : fetchDoc fs (fileURL cwd) = some doc)
    (hv : (env.render doc).visibleWithinTimeout selector = none) :
    (run env cwd fs osEnv argv).exitCode = 1 ∧
    (run env cwd fs osEnv argv).err = some (PwError.selectorTimeout selector) ∧
    (run env cwd fs osEnv argv).fs = fs ∧
    Event.screenshot selector outputPath ∉ (run env cwd fs osEnv argv).trace := by
  rw [run_eq_timeoutFail env cwd fs osEnv argv doc hl hd hv]
  exact ⟨rfl, rfl, rfl, by simp⟩

/-- Witness for C4: a page whose `#main-menu` never becomes visible. -/
theorem run_visibility_timeout_witness :
    (run envNoMenu "/repo" fsDemo [] []).exitCode = 1 ∧
    (run envNoMenu "/repo" fsDemo [] []).err
      = some (PwError.selectorTimeout selector) ∧
    (run envNoMenu "/repo" fsDemo [] []).fs = fsDemo ∧
    Event.screenshot selector outputPath ∉ (run envNoMenu "/repo" fsDemo [] []).trace :=
  run_visibility_timeout envNoMenu "/repo" fsDemo [] [] "<html>"
    (by decide) (by decide) (by decide)

/-- C9: for a valid `index.html` (in a working directory whose path is
free of URL-delimiter characters), running the script twice in succession
overwrites `reset-button.png` each time, and — rendering being a function
of the document in this model — the two images have identical
dimensions. -/
theorem run_idempotent_dimensions (env : BrowserEnv) (cwd : String) (fs : FS)
    (osEnv : List (String × String)) (argv : List String) (doc : String) (v : ElemView)
    (hclean : noFragChars cwd = true)
    (hread : readFile fs (absPath cwd htmlFileName) = some (FileData.text doc))
    (hl : env.launchOk = true)
    (hv : (env.render doc).visibleWithinTimeout selector = some v)
    (hw : env.writeOk outputPath = true) :
    ∃ i₁ i₂ : Image,
      readFile (run env cwd fs osEnv argv).fs outputPath
        = some (FileData.image i₁) ∧
      readFile (run env cwd (run env cwd fs osEnv argv).fs osEnv argv).fs outputPath
        = some (FileData.image i₂) ∧
      i₂.width = i₁.width ∧ i₂.height = i₁.height := by
  have hd1 : fetchDoc fs (fileURL cwd) = some doc := by
    rw [fetchDoc_clean fs cwd hclean, hread]
  have hrun1 := run_eq_success env cwd fs osEnv argv doc v hl hd1 hv hw
  have hread2 : readFile (run env cwd fs osEnv argv).fs (absPath cwd htmlFileName)
      = some (FileData.text doc) := by
    rw [hrun1]
    rw [readFile_writeFile_ne fs outputPath (absPath cwd htmlFileName) _
      (absPath_ne_output cwd)]
    exact hread
  have hd2 : fetchDoc (run env cwd fs osEnv argv).fs (fileURL cwd) = some doc := by
    rw [fetchDoc_clean _ cwd hclean, hread2]
  have hrun2 := run_eq_success env cwd (run env cwd fs osEnv argv).fs osEnv argv
    doc v hl hd2 hv hw
  refine ⟨elemImage v, elemImage v, ?_, ?_, rfl, rfl⟩
  · rw [hrun1]
    exact readFile_writeFile fs outputPath _
  · rw [hrun2]
    exact readFile_writeFile _ outputPath _

/-- Witness for C9 at a concrete pair of consecutive runs. -/
theorem run_idempotent_dimensions_witness :
    ∃ i₁ i₂ : Image,
      readFile (run envDemo "/repo" fsDemo [] []).fs outputPath
        = some (FileData.image i₁) ∧
      readFile (run envDemo "/repo" (run envDemo "/repo" fsDemo [] []).fs [] []).fs outputPath
        = some (FileData.image i₂) ∧
      i₂.width = i₁.width ∧ i₂.height = i₁.height :=
  run_idempotent_dimensions envDemo "/repo" fsDemo [] [] "<html>"
    { width := 10, height := 5, pixels := [1, 2, 3] }
    (by decide) (by decide) (by decide) (by decide) (by decide)

/-- C10: the navigation URL is exactly the string `file://` concatenated
with the absolute path of `index.html`, character for character, with no
percent-encoding or escaping; consequently, for the working directory
`/work#dir` — whose absolute path contains the URL-significant character
`#` — the resource the browser navigates to (`/work`) differs from the
intended file (`/work#dir/index.html`). -/
theorem fileURL_unescaped :
    (∀ cwd : String, (fileURL cwd).data
        = "file://".data ++ cwd.data ++ "/index.html".data) ∧
    urlPathOf (fileURL "/work#dir") = some "/work" ∧
    absPath "/work#dir" htmlFileName = "/work#dir/index.html" ∧
    urlPathOf (fileURL "/work#dir") ≠ some (absPath "/work#dir" htmlFileName) := by
  refine ⟨fun cwd => ?_, by decide, by decide, by decide⟩
  rw [fileURL_data, absPath_data]
  simp
